import Mathlib

/-!
Verification of the KSRTC Swift booking-automation scripts
(final.py, ver2.py, clossing_popup.py) against their natural-language
specification.

The scripts are sequential Playwright drivers.  We embed the parts the
claims mention shallowly:

* Python substring membership (the `in` operator on strings) is embedded
  as an executable character-list scan (`pyIn`).
* Each script run is embedded as the sequence of high-level booking
  steps it performs (`Step`), the sequence of awaited automation calls
  it issues together with the try/except handlers lexically enclosing
  each call (`ACall`), and the tail of `main` as a function from the
  outcome of the try block to the list of cleanup events (`main_tail`).
* `select_seats` of final.py and ver2.py are embedded as executable
  functions from the seat-chart state (the list of seat elements with
  their text contents) to the list of clicked seat indices; the Python
  `in` test is embedded as case-sensitive substring containment, and
  Playwright has-text matching as case-insensitive substring containment
  on whitespace-normalized text.
-/

/- ### Python string containment -/

/-- Whether the first character list is a leading segment of the second. -/
def charsLead : List Char → List Char → Bool
  | [], _ => true
  | _ :: _, [] => false
  | a :: as, b :: bs => a == b && charsLead as bs

/-- Whether the first character list occurs contiguously inside the second. -/
def charsSub : List Char → List Char → Bool
  | sub, [] => charsLead sub []
  | sub, c :: t => charsLead sub (c :: t) || charsSub sub t

/-- Embedding of the Python expression `sub in s` on strings. -/
def pyIn (sub s : String) : Bool := charsSub sub.data s.data

/- ### String append helpers -/

/-- String append is associative. -/
theorem strAppendAssoc : ∀ (a b c : String), a ++ b ++ c = a ++ (b ++ c)
  | ⟨la⟩, ⟨lb⟩, ⟨lc⟩ => congrArg String.mk (List.append_assoc la lb lc)

/-- Merging two adjacent string literals inside a right-nested append. -/
theorem strLitMerge (p q r : String) (h : p ++ q = r) (x : String) :
    p ++ (q ++ x) = r ++ x := by
  rw [← h, ← strAppendAssoc]

/- ### The booking steps (claim C1) -/

/-- The high-level booking steps the spec enumerates. -/
inductive Step
  | openSite
  | dismissOverlay
  | fillFromCity
  | fillToCity
  | applyDate
  | selectBus
  | selectSeats
  | choosePickup
  | chooseDropoff
  | fillPassenger
  | fillPayment
deriving DecidableEq

/-- The full booking sequence in the order the spec lists the steps. -/
def bookingStepsInOrder : List Step :=
  [Step.openSite, Step.dismissOverlay, Step.fillFromCity, Step.fillToCity,
   Step.applyDate, Step.selectBus, Step.selectSeats, Step.choosePickup,
   Step.chooseDropoff, Step.fillPassenger, Step.fillPayment]

/-- Boolean check that the first step list occurs as a subsequence of the
second (same relative order, possibly skipping steps). -/
def stepSeqIn : List Step → List Step → Bool
  | [], _ => true
  | _ :: _, [] => false
  | a :: as, b :: bs => if a = b then stepSeqIn as bs else stepSeqIn (a :: as) bs

namespace Final

/-- The booking steps final.py performs, in source order: `main` navigates
directly to the search-results URL, then selects the bus, the seats, the
pickup and dropoff points, and fills passenger and payee details.  It never
dismisses an overlay, never fills the city fields, and never applies the
date separately from the URL. -/
def steps : List Step :=
  [Step.openSite, Step.selectBus, Step.selectSeats, Step.choosePickup,
   Step.chooseDropoff, Step.fillPassenger, Step.fillPayment]

end Final

namespace Ver2

/-- The booking steps ver2.py performs, in source order: `main` navigates
directly to the search-results URL, selects the bus and selects seats, then
stops. -/
def steps : List Step := [Step.openSite, Step.selectBus, Step.selectSeats]

end Ver2

namespace ClossingPopup

/-- The booking steps clossing_popup.py performs, in source order: `main`
opens the home page, closes the promotional pop-up, fills the From city and
the To city, then stops. -/
def steps : List Step :=
  [Step.openSite, Step.dismissOverlay, Step.fillFromCity, Step.fillToCity]

end ClossingPopup

/- ### The search URL (claim C4) -/

namespace Final

/-- From final.py `navigate_to_search_results`: the value placed in the
fromCity query parameter. -/
def from_city_value (from_city : String) : String := "298|" ++ from_city

/-- From final.py `navigate_to_search_results`: the value placed in the
toCity query parameter. -/
def to_city_value (to_city : String) : String := "462|" ++ to_city

/-- From final.py `navigate_to_search_results`: the search URL passed to
`page.goto`. -/
def search_url (from_city to_city date_str : String) : String :=
  "https://onlineksrtcswift.com/search?fromCity=" ++ from_city_value from_city
    ++ "&toCity=" ++ to_city_value to_city
    ++ "&departDate=" ++ date_str
    ++ "&mode=oneway&src=h&stationInFromCity=&stationInToCity="

end Final

namespace Ver2

/-- From ver2.py `navigate_to_search_results`: the value placed in the
fromCity query parameter. -/
def from_city_value (from_city : String) : String := "298|" ++ from_city

/-- From ver2.py `navigate_to_search_results`: the value placed in the
toCity query parameter. -/
def to_city_value (to_city : String) : String := "462|" ++ to_city

/-- From ver2.py `navigate_to_search_results`: the search URL passed to
`page.goto`. -/
def search_url (from_city to_city date_str : String) : String :=
  "https://onlineksrtcswift.com/search?fromCity=" ++ from_city_value from_city
    ++ "&toCity=" ++ to_city_value to_city
    ++ "&departDate=" ++ date_str
    ++ "&mode=oneway&src=h&stationInFromCity=&stationInToCity="

end Ver2

/-- The search URL exactly as the specification claim words it, with the
city names and date substituted into the template
`https://onlineksrtcswift.com/search?fromCity=298|<from_city>&toCity=462|<to_city>&departDate=<date_str>&mode=oneway&src=h&stationInFromCity=&stationInToCity=`. -/
def specSearchUrl (from_city to_city date_str : String) : String :=
  "https://onlineksrtcswift.com/search?fromCity=298|" ++ from_city
    ++ "&toCity=462|" ++ to_city
    ++ "&departDate=" ++ date_str
    ++ "&mode=oneway&src=h&stationInFromCity=&stationInToCity="

/-- C4: for every from_city, to_city and date_str, final.py and ver2.py
build the same search URL, and it is exactly the URL template the claim
states. -/
theorem c4_search_urls_equal_and_match_template (f t d : String) :
    Final.search_url f t d = Ver2.search_url f t d ∧
    Final.search_url f t d = specSearchUrl f t d := by
  constructor
  · rfl
  · simp only [Final.search_url, Final.from_city_value, Final.to_city_value,
      specSearchUrl, strAppendAssoc]
    rw [strLitMerge "https://onlineksrtcswift.com/search?fromCity=" "298|"
      "https://onlineksrtcswift.com/search?fromCity=298|" (by decide)]
    rw [strLitMerge "&toCity=" "462|" "&toCity=462|" (by decide)]

/-- C1 counterexample: no single script performs all the listed booking
steps.  clossing_popup.py never selects a bus; final.py and ver2.py never
dismiss the promotional overlay; ver2.py never chooses a pickup point. -/
theorem c1_not_all_steps_performed :
    Step.selectBus ∉ ClossingPopup.steps ∧
    Step.dismissOverlay ∉ Final.steps ∧
    Step.choosePickup ∉ Ver2.steps ∧
    ClossingPopup.steps ≠ bookingStepsInOrder := by
  decide

/-- C1 amended: each script performs a subsequence of the listed booking
steps, in the listed relative order, one step after the other; no script
performs all of them. -/
theorem c1_steps_subsequence_of_booking_order :
    stepSeqIn Final.steps bookingStepsInOrder = true ∧
    stepSeqIn Ver2.steps bookingStepsInOrder = true ∧
    stepSeqIn ClossingPopup.steps bookingStepsInOrder = true := by
  decide

/- ### Seat selection (claims C5, C7, C8) -/

/-- One seat element of the seat chart: the text content of the
`div.seatlook` element and the text content of its `div.farepopup` child.
`text_content` is modelled as returning a string; the Python truthiness
guard on the farepopup text becomes an emptiness check. -/
structure Seat where
  text : String
  fare : String
deriving DecidableEq

/-- The farepopup pattern final.py matches: `Seat: <n> |`. -/
def fareKeyFinal (n : Nat) : String := "Seat: " ++ toString n ++ " |"

/-- The farepopup pattern ver2.py matches (its has-text locator argument):
`Seat: <n>`. -/
def fareKeyVer2 (n : Nat) : String := "Seat: " ++ toString n

/-- Whether a character is whitespace for Playwright text normalization. -/
def wsChar (c : Char) : Bool := c == ' ' || c == '\t' || c == '\n' || c == '\r'

/-- Replace a whitespace character by a plain space. -/
def wsToSpace (c : Char) : Char := if wsChar c then ' ' else c

/-- Collapse runs of adjacent spaces into a single space. -/
def collapseSpaces : List Char → List Char
  | [] => []
  | [c] => [c]
  | a :: b :: rest =>
    if a == ' ' && b == ' ' then collapseSpaces (b :: rest)
    else a :: collapseSpaces (b :: rest)

/-- Drop leading spaces. -/
def trimLeadSpaces : List Char → List Char
  | [] => []
  | c :: rest => if c == ' ' then trimLeadSpaces rest else c :: rest

/-- Playwright text normalization: lower-case the text, turn every
whitespace character into a space, collapse whitespace runs, and trim
leading and trailing whitespace. -/
def normText (s : String) : List Char :=
  trimLeadSpaces
    ((trimLeadSpaces
      ((collapseSpaces (s.data.map (fun c => wsToSpace c.toLower))).reverse)).reverse)

/-- Embedding of a Playwright `:has-text("...")` / `has_text` match: the
normalized search text occurs as a substring of the normalized element
text (Playwright matches case-insensitively on whitespace-normalized
text). -/
def hasText (needle hay : String) : Bool := charsSub (normText needle) (normText hay)

/-- First index of the list satisfying the predicate, if any. -/
def firstIdx (p : Seat → Bool) : List Seat → Option Nat
  | [] => none
  | s :: rest => if p s then some 0 else (firstIdx p rest).map (· + 1)

namespace Final

/-- From final.py `select_seats`, the inner loop condition for seat number
`n`: the seat is skipped when its text contains `Sold`, and matches when
its farepopup text is truthy and contains `Seat: <n> |`. -/
def seatCond (n : Nat) (s : Seat) : Bool :=
  !(pyIn "Sold" s.text) && (s.fare != "" && pyIn (fareKeyFinal n) s.fare)

/-- From final.py `select_seats`: the priority loop.  For each priority
seat number, it breaks once `selected_seats >= max_seats`, finds the first
seat element matching `seatCond`, clicks it and increments the count.
Returns the clicked seat indices in click order. -/
def selectLoop (seats : List Seat) : List Nat → Nat → Nat → List Nat
  | [], _, _ => []
  | n :: rest, selected_seats, max_seats =>
    if max_seats ≤ selected_seats then []
    else
      match firstIdx (seatCond n) seats with
      | some i => i :: selectLoop seats rest (selected_seats + 1) max_seats
      | none => selectLoop seats rest selected_seats max_seats

/-- From final.py `select_seats`: the seat numbers the priority loop
attempts (the iterations that are not cut off by the break), in order. -/
def attemptLoop (seats : List Seat) : List Nat → Nat → Nat → List Nat
  | [], _, _ => []
  | n :: rest, selected_seats, max_seats =>
    if max_seats ≤ selected_seats then []
    else
      match firstIdx (seatCond n) seats with
      | some _ => n :: attemptLoop seats rest (selected_seats + 1) max_seats
      | none => n :: attemptLoop seats rest selected_seats max_seats

/-- final.py `select_seats` with its default arguments
`seat_priority=[3, 5, 4, 6], max_seats=1`, as called from `main`. -/
def select_seats (seats : List Seat) : List Nat :=
  selectLoop seats [3, 5, 4, 6] 0 1

end Final

namespace Ver2

/-- From ver2.py `select_seats`, the locator condition for seat number
`n`: the seat element has a farepopup child whose text matches the
has-text pattern `Seat: <n>` (case-insensitive, whitespace-normalized
substring; no Sold filter and no trailing delimiter, unlike final.py). -/
def seatCond (n : Nat) (s : Seat) : Bool := hasText (fareKeyVer2 n) s.fare

/-- From ver2.py `select_seats`: the priority loop.  For each priority
seat number, it breaks once `selected_seats >= max_seats`; when the
locator count is positive it clicks the first matching seat element and
increments the count.  Returns the clicked seat indices in click order. -/
def selectLoop (seats : List Seat) : List Nat → Nat → Nat → List Nat
  | [], _, _ => []
  | n :: rest, selected_seats, max_seats =>
    if max_seats ≤ selected_seats then []
    else
      match firstIdx (seatCond n) seats with
      | some i => i :: selectLoop seats rest (selected_seats + 1) max_seats
      | none => selectLoop seats rest selected_seats max_seats

/-- From ver2.py `select_seats`: the seat numbers the priority loop
attempts, in order. -/
def attemptLoop (seats : List Seat) : List Nat → Nat → Nat → List Nat
  | [], _, _ => []
  | n :: rest, selected_seats, max_seats =>
    if max_seats ≤ selected_seats then []
    else
      match firstIdx (seatCond n) seats with
      | some _ => n :: attemptLoop seats rest (selected_seats + 1) max_seats
      | none => n :: attemptLoop seats rest selected_seats max_seats

/-- ver2.py `select_seats` with its default arguments
`seat_priority=[3, 5, 4, 6], max_seats=1`, as called from `main`. -/
def select_seats (seats : List Seat) : List Nat :=
  selectLoop seats [3, 5, 4, 6] 0 1

end Ver2

/- ### Lemmas about the seat-selection loops -/

/-- Unfolded append of the data of two strings. -/
theorem strDataAppend : ∀ (a b : String), (a ++ b).data = a.data ++ b.data
  | ⟨_⟩, ⟨_⟩ => rfl

/-- The final.py farepopup pattern is never found in an empty farepopup
text. -/
theorem pyIn_fareKeyFinal_empty (n : Nat) : pyIn (fareKeyFinal n) "" = false := by
  unfold pyIn fareKeyFinal
  rw [strDataAppend, strDataAppend]
  rfl

/-- `firstIdx` returns an index of an element satisfying the predicate. -/
theorem firstIdx_mem {p : Seat → Bool} :
    ∀ {l : List Seat} {i : Nat}, firstIdx p l = some i →
      ∃ s, l[i]? = some s ∧ p s = true
  | [], i, h => by simp [firstIdx] at h
  | s :: rest, i, h => by
    by_cases hp : p s = true
    · simp only [firstIdx, if_pos hp] at h
      cases h
      exact ⟨s, by simp, hp⟩
    · simp only [firstIdx, if_neg hp, Option.map_eq_some'] at h
      obtain ⟨j, hj, rfl⟩ := h
      obtain ⟨x, hx, hpx⟩ := firstIdx_mem hj
      exact ⟨x, by simpa using hx, hpx⟩

/-- `firstIdx` only depends on the predicate values on the list. -/
theorem firstIdx_congr {p q : Seat → Bool} :
    ∀ {l : List Seat}, (∀ s ∈ l, p s = q s) → firstIdx p l = firstIdx q l
  | [], _ => rfl
  | s :: rest, h => by
    have hs := h s (List.mem_cons_self s rest)
    have ih := firstIdx_congr (fun x hx => h x (List.mem_cons_of_mem s hx))
    simp [firstIdx, hs, ih]

/-- Every index clicked by final.py comes from a `firstIdx` search for
some priority seat number. -/
theorem Final.selectLoop_mem (seats : List Seat) :
    ∀ (prio : List Nat) (sel maxS i : Nat),
      i ∈ Final.selectLoop seats prio sel maxS →
      ∃ n, firstIdx (Final.seatCond n) seats = some i
  | [], _, _, _, h => by simp [Final.selectLoop] at h
  | n :: rest, sel, maxS, i, h => by
    unfold Final.selectLoop at h
    by_cases hb : maxS ≤ sel
    · simp [hb] at h
    · simp only [if_neg hb] at h
      cases hf : firstIdx (Final.seatCond n) seats with
      | some j =>
        rw [hf] at h
        rcases List.mem_cons.mp h with rfl | hmem
        · exact ⟨n, hf⟩
        · exact Final.selectLoop_mem seats rest (sel + 1) maxS i hmem
      | none =>
        rw [hf] at h
        exact Final.selectLoop_mem seats rest sel maxS i h

/-- The final.py priority loop clicks at most `max_seats - selected_seats`
further seats. -/
theorem final_selectLoop_length (seats : List Seat) :
    ∀ (prio : List Nat) (sel maxS : Nat),
      (Final.selectLoop seats prio sel maxS).length ≤ maxS - sel
  | [], _, _ => by simp [Final.selectLoop]
  | n :: rest, sel, maxS => by
    unfold Final.selectLoop
    by_cases hb : maxS ≤ sel
    · simp [hb]
    · simp only [if_neg hb]
      cases hf : firstIdx (Final.seatCond n) seats with
      | some i =>
        have ih := final_selectLoop_length seats rest (sel + 1) maxS
        simp only [List.length_cons]
        omega
      | none => exact final_selectLoop_length seats rest sel maxS

/-- The ver2.py priority loop clicks at most `max_seats - selected_seats`
further seats. -/
theorem ver2_selectLoop_length (seats : List Seat) :
    ∀ (prio : List Nat) (sel maxS : Nat),
      (Ver2.selectLoop seats prio sel maxS).length ≤ maxS - sel
  | [], _, _ => by simp [Ver2.selectLoop]
  | n :: rest, sel, maxS => by
    unfold Ver2.selectLoop
    by_cases hb : maxS ≤ sel
    · simp [hb]
    · simp only [if_neg hb]
      cases hf : firstIdx (Ver2.seatCond n) seats with
      | some i =>
        have ih := ver2_selectLoop_length seats rest (sel + 1) maxS
        simp only [List.length_cons]
        omega
      | none => exact ver2_selectLoop_length seats rest sel maxS

/-- The seat numbers final.py attempts form a leading segment of the
priority list. -/
theorem final_attemptLoop_take (seats : List Seat) :
    ∀ (prio : List Nat) (sel maxS : Nat),
      ∃ k, Final.attemptLoop seats prio sel maxS = prio.take k
  | [], _, _ => ⟨0, by simp [Final.attemptLoop]⟩
  | n :: rest, sel, maxS => by
    unfold Final.attemptLoop
    by_cases hb : maxS ≤ sel
    · exact ⟨0, by simp [hb]⟩
    · cases hf : firstIdx (Final.seatCond n) seats with
      | some i =>
        obtain ⟨k, hk⟩ := final_attemptLoop_take seats rest (sel + 1) maxS
        exact ⟨k + 1, by simp [if_neg hb, hf, hk, List.take_succ_cons]⟩
      | none =>
        obtain ⟨k, hk⟩ := final_attemptLoop_take seats rest sel maxS
        exact ⟨k + 1, by simp [if_neg hb, hf, hk, List.take_succ_cons]⟩

/-- The seat numbers ver2.py attempts form a leading segment of the
priority list. -/
theorem ver2_attemptLoop_take (seats : List Seat) :
    ∀ (prio : List Nat) (sel maxS : Nat),
      ∃ k, Ver2.attemptLoop seats prio sel maxS = prio.take k
  | [], _, _ => ⟨0, by simp [Ver2.attemptLoop]⟩
  | n :: rest, sel, maxS => by
    unfold Ver2.attemptLoop
    by_cases hb : maxS ≤ sel
    · exact ⟨0, by simp [hb]⟩
    · cases hf : firstIdx (Ver2.seatCond n) seats with
      | some i =>
        obtain ⟨k, hk⟩ := ver2_attemptLoop_take seats rest (sel + 1) maxS
        exact ⟨k + 1, by simp [if_neg hb, hf, hk, List.take_succ_cons]⟩
      | none =>
        obtain ⟨k, hk⟩ := ver2_attemptLoop_take seats rest sel maxS
        exact ⟨k + 1, by simp [if_neg hb, hf, hk, List.take_succ_cons]⟩

/-- Pointwise agreement of the two seat conditions on a seat that is not
sold and whose farepopup text matches the has-text pattern `Seat: <n>`
exactly when it contains `Seat: <n> |`. -/
theorem seatCond_eq_of_agreement (s : Seat) (n : Nat)
    (hsold : pyIn "Sold" s.text = false)
    (hfare : hasText (fareKeyVer2 n) s.fare = pyIn (fareKeyFinal n) s.fare) :
    Final.seatCond n s = Ver2.seatCond n s := by
  unfold Final.seatCond Ver2.seatCond
  rw [hsold, hfare]
  by_cases hf : s.fare = ""
  · simp [hf, pyIn_fareKeyFinal_empty]
  · have hne : (s.fare != "") = true := by simp [hf]
    simp [hne]

/-- When the two variants find the same first matching seat for every
priority number, the two priority loops click the same seats. -/
theorem selectLoops_eq (seats : List Seat) :
    ∀ (prio : List Nat) (sel maxS : Nat),
      (∀ n ∈ prio, firstIdx (Final.seatCond n) seats = firstIdx (Ver2.seatCond n) seats) →
      Final.selectLoop seats prio sel maxS = Ver2.selectLoop seats prio sel maxS
  | [], _, _, _ => rfl
  | n :: rest, sel, maxS, h => by
    have hn := h n (List.mem_cons_self n rest)
    have hrest : ∀ m ∈ rest, firstIdx (Final.seatCond m) seats = firstIdx (Ver2.seatCond m) seats :=
      fun m hm => h m (List.mem_cons_of_mem n hm)
    unfold Final.selectLoop Ver2.selectLoop
    by_cases hb : maxS ≤ sel
    · simp [hb]
    · simp only [if_neg hb]
      rw [hn]
      cases firstIdx (Ver2.seatCond n) seats with
      | some i => rw [selectLoops_eq seats rest (sel + 1) maxS hrest]
      | none => exact selectLoops_eq seats rest sel maxS hrest

/-- C5 counterexample: the two variants do not select the same seats on
the same seat chart state.  Three concrete charts exhibit one divergence
each: on a chart holding a single sold seat number 3, final.py clicks
nothing (its `Sold` filter skips the seat) while ver2.py clicks it; on a
chart holding available seat number 30, final.py clicks nothing (no
farepopup contains `Seat: 3 |` or another priority pattern) while
ver2.py's undelimited `Seat: 3` pattern matches `Seat: 30 | 600` and
clicks it; and on a chart whose farepopup reads `SEAT: 3`, final.py's
case-sensitive Python substring test fails while ver2.py's
case-insensitive has-text match clicks it. -/
theorem c5_sold_seat_distinguishes_variants :
    (Final.select_seats [⟨"Sold", "Seat: 3 | 500"⟩] = [] ∧
     Ver2.select_seats [⟨"Sold", "Seat: 3 | 500"⟩] = [0]) ∧
    (Final.select_seats [⟨"9", "Seat: 30 | 600"⟩] = [] ∧
     Ver2.select_seats [⟨"9", "Seat: 30 | 600"⟩] = [0]) ∧
    (Final.select_seats [⟨"9", "SEAT: 3"⟩] = [] ∧
     Ver2.select_seats [⟨"9", "SEAT: 3"⟩] = [0]) ∧
    Final.select_seats [⟨"Sold", "Seat: 3 | 500"⟩] ≠
      Ver2.select_seats [⟨"Sold", "Seat: 3 | 500"⟩] := by
  decide

/-- C5 amended: the two select_seats variants click the same seats on
every seat chart in which no seat text contains `Sold` and, for each
priority seat number n, each farepopup text matches ver2.py's
case-insensitive whitespace-normalized has-text pattern `Seat: <n>`
exactly when it contains `Seat: <n> |` verbatim (ver2.py drops the
sold-seat filter, the trailing delimiter of the match pattern and the
case-sensitivity of the Python substring test, so the variants differ on
charts with sold seats, ambiguous seat-number prefixes or differently
cased farepopup text). -/
theorem c5_variants_agree_without_sold_or_ambiguity (seats : List Seat)
    (hsold : ∀ s ∈ seats, pyIn "Sold" s.text = false)
    (hfare : ∀ s ∈ seats, ∀ n ∈ [3, 5, 4, 6],
      hasText (fareKeyVer2 n) s.fare = pyIn (fareKeyFinal n) s.fare) :
    Final.select_seats seats = Ver2.select_seats seats := by
  unfold Final.select_seats Ver2.select_seats
  apply selectLoops_eq
  intro n hn
  apply firstIdx_congr
  intro s hs
  exact seatCond_eq_of_agreement s n (hsold s hs) (hfare s hs n hn)

/-- C5 witness: a concrete chart with one available seat number 3, on
which both hypotheses hold and both variants click seat index 0. -/
theorem c5_variants_agree_witness :
    (∀ s ∈ ([⟨"9", "Seat: 3 | 500"⟩] : List Seat), pyIn "Sold" s.text = false) ∧
    (∀ s ∈ ([⟨"9", "Seat: 3 | 500"⟩] : List Seat), ∀ n ∈ [3, 5, 4, 6],
      hasText (fareKeyVer2 n) s.fare = pyIn (fareKeyFinal n) s.fare) ∧
    Final.select_seats [⟨"9", "Seat: 3 | 500"⟩] = Ver2.select_seats [⟨"9", "Seat: 3 | 500"⟩] :=
  ⟨by decide, by decide,
    c5_variants_agree_without_sold_or_ambiguity _ (by decide) (by decide)⟩

/-- C7: final.py never clicks a sold seat: every index its priority loop
clicks, with any priority list, selected count and seat cap, belongs to a
seat element whose text does not contain `Sold`. -/
theorem c7_never_clicks_sold_seat (seats : List Seat) (prio : List Nat)
    (sel maxS i : Nat) (hi : i ∈ Final.selectLoop seats prio sel maxS) :
    ∃ s, seats[i]? = some s ∧ pyIn "Sold" s.text = false := by
  obtain ⟨n, hn⟩ := Final.selectLoop_mem seats prio sel maxS i hi
  obtain ⟨s, hs, hcond⟩ := firstIdx_mem hn
  refine ⟨s, hs, ?_⟩
  unfold Final.seatCond at hcond
  simp only [Bool.and_eq_true] at hcond
  simpa using hcond.1

/-- C7 witness: a chart whose first seat is sold and whose second seat is
available seat 3; final.py clicks index 1 and that seat is not sold. -/
theorem c7_never_clicks_sold_seat_witness :
    (1 ∈ Final.selectLoop [⟨"Sold", "Seat: 3 | 500"⟩, ⟨"9", "Seat: 3 | 500"⟩] [3, 5, 4, 6] 0 1) ∧
    ∃ s, ([⟨"Sold", "Seat: 3 | 500"⟩, ⟨"9", "Seat: 3 | 500"⟩] : List Seat)[1]? = some s ∧
      pyIn "Sold" s.text = false :=
  ⟨by decide,
    c7_never_clicks_sold_seat [⟨"Sold", "Seat: 3 | 500"⟩, ⟨"9", "Seat: 3 | 500"⟩]
      [3, 5, 4, 6] 0 1 1 (by decide)⟩

/-- C8: both select_seats variants click at most max_seats seats for any
priority list and cap; with the default arguments at most one seat is
clicked; and the seat numbers attempted form a leading segment of the
default priority order [3, 5, 4, 6], so each is attempted at most once and
in that order. -/
theorem c8_at_most_max_seats_and_priority_order (seats : List Seat)
    (prio : List Nat) (maxS : Nat) :
    (Final.selectLoop seats prio 0 maxS).length ≤ maxS ∧
    (Ver2.selectLoop seats prio 0 maxS).length ≤ maxS ∧
    (Final.select_seats seats).length ≤ 1 ∧
    (Ver2.select_seats seats).length ≤ 1 ∧
    (∃ k, Final.attemptLoop seats [3, 5, 4, 6] 0 1 = [3, 5, 4, 6].take k) ∧
    (∃ k, Ver2.attemptLoop seats [3, 5, 4, 6] 0 1 = [3, 5, 4, 6].take k) := by
  refine ⟨?_, ?_, ?_, ?_, ?_, ?_⟩
  · simpa using final_selectLoop_length seats prio 0 maxS
  · simpa using ver2_selectLoop_length seats prio 0 maxS
  · simpa using final_selectLoop_length seats [3, 5, 4, 6] 0 1
  · simpa using ver2_selectLoop_length seats [3, 5, 4, 6] 0 1
  · exact final_attemptLoop_take seats [3, 5, 4, 6] 0 1
  · exact ver2_attemptLoop_take seats [3, 5, 4, 6] 0 1

/- ### Automation calls and their enclosing exception handlers (claims C2, C10) -/

/-- One Python try statement, summarised by which exceptions its except
clauses catch — the Playwright timeout exception, and any other (generic)
exception — and whether every one of its except clauses logs the caught
failure (via logging.error or logging.info). -/
structure Handler where
  onTimeout : Bool
  onGeneric : Bool
  logsFailure : Bool
deriving DecidableEq

/-- A try with clauses `except PlaywrightTimeoutError` and
`except Exception`, each clause logging the failure (this also describes
the bare `except:` of select_seats, which catches everything and logs). -/
def tryBoth : Handler := ⟨true, true, true⟩

/-- A try whose only clause is `except PlaywrightTimeoutError`, logging
when it fires (the promotional pop-up try of clossing_popup.py). -/
def tryTimeoutOnly : Handler := ⟨true, false, true⟩

/-- One awaited automation-library call site, together with the try
statements lexically enclosing it, innermost first. -/
structure ACall where
  name : String
  handlers : List Handler
deriving DecidableEq

/-- Whether the handlers enclosing a call catch both the timeout exception
and a generic exception, so neither kind propagates past them. -/
def coveredBoth (c : ACall) : Bool :=
  c.handlers.any (fun h => h.onTimeout) && c.handlers.any (fun h => h.onGeneric)

namespace Final

/-- final.py: the awaited Playwright calls issued before `main`'s try
block (browser launch, context and page creation). -/
def setupCalls : List ACall :=
  [⟨"p.chromium.launch", []⟩, ⟨"browser.new_context", []⟩, ⟨"context.new_page", []⟩]

/-- final.py: the awaited automation calls issued inside `main`'s try
block, in source order, each with its enclosing try statements (the inner
bare except of select_seats around wait_for, the inner try of the confirm
pop-up, and the per-step try statements of the pickup, dropoff, passenger
and payee functions, all inside `main`'s try with its timeout and generic
clauses). -/
def tryCalls : List ACall :=
  [⟨"page.goto", [tryBoth]⟩,
   ⟨"bus_card.selectbutton.click", [tryBoth]⟩,
   ⟨"seat_chart.wait_for", [tryBoth, tryBoth]⟩,
   ⟨"all_seats.count", [tryBoth]⟩,
   ⟨"seat_div.text_content", [tryBoth]⟩,
   ⟨"farepopup.text_content", [tryBoth]⟩,
   ⟨"found_seat.click", [tryBoth]⟩,
   ⟨"confirm_button.click", [tryBoth, tryBoth]⟩,
   ⟨"pickup_point.click", [tryBoth, tryBoth]⟩,
   ⟨"point_inp.click", [tryBoth, tryBoth]⟩,
   ⟨"dropoff_point.click", [tryBoth, tryBoth]⟩,
   ⟨"btn_pass_details.click", [tryBoth, tryBoth]⟩,
   ⟨"name_input.fill", [tryBoth, tryBoth]⟩,
   ⟨"age_input.fill", [tryBoth, tryBoth]⟩,
   ⟨"proceed_payee.click", [tryBoth, tryBoth]⟩,
   ⟨"number_input.fill", [tryBoth, tryBoth]⟩,
   ⟨"email_input.fill", [tryBoth, tryBoth]⟩,
   ⟨"proceed_payment.click", [tryBoth, tryBoth]⟩,
   ⟨"upi_input.fill", [tryBoth, tryBoth]⟩,
   ⟨"verify_pay.click", [tryBoth, tryBoth]⟩]

/-- final.py: the awaited calls issued in `main`'s except clauses and
finally block (the failure screenshots, the sleep and the browser close);
code in an except or finally clause is no longer protected by that try. -/
def tailCalls : List ACall :=
  [⟨"page.screenshot.timeout", []⟩, ⟨"page.screenshot.failure", []⟩,
   ⟨"asyncio.sleep", []⟩, ⟨"browser.close", []⟩]

/-- final.py: every awaited automation call of the script, in source
order. -/
def allCalls : List ACall := setupCalls ++ tryCalls ++ tailCalls

end Final

namespace Ver2

/-- ver2.py: the awaited Playwright calls issued before `main`'s try
block. -/
def setupCalls : List ACall :=
  [⟨"p.chromium.launch", []⟩, ⟨"browser.new_context", []⟩, ⟨"context.new_page", []⟩]

/-- ver2.py: the awaited automation calls issued inside `main`'s try
block, in source order, each with its enclosing try statements. -/
def tryCalls : List ACall :=
  [⟨"page.goto", [tryBoth]⟩,
   ⟨"bus_card.selectbutton.click", [tryBoth]⟩,
   ⟨"seat_chart.wait_for", [tryBoth, tryBoth]⟩,
   ⟨"seat_locator.count", [tryBoth]⟩,
   ⟨"seat_locator.first.click", [tryBoth]⟩]

/-- ver2.py: the awaited calls issued in `main`'s except clauses and
finally block. -/
def tailCalls : List ACall :=
  [⟨"page.screenshot.timeout", []⟩, ⟨"page.screenshot.failure", []⟩,
   ⟨"asyncio.sleep", []⟩, ⟨"browser.close", []⟩]

/-- ver2.py: every awaited automation call of the script, in source
order. -/
def allCalls : List ACall := setupCalls ++ tryCalls ++ tailCalls

end Ver2

namespace ClossingPopup

/-- clossing_popup.py: the awaited Playwright calls issued before `main`'s
try block. -/
def setupCalls : List ACall :=
  [⟨"p.chromium.launch", []⟩, ⟨"browser.new_context", []⟩, ⟨"context.new_page", []⟩]

/-- clossing_popup.py: the awaited automation calls issued inside `main`'s
try block, in source order; the pop-up close click sits in an inner try
that catches only the timeout exception, inside `main`'s try with its
timeout and generic clauses. -/
def tryCalls : List ACall :=
  [⟨"page.goto", [tryBoth]⟩,
   ⟨"close_button.click", [tryTimeoutOnly, tryBoth]⟩,
   ⟨"page.wait_for_selector", [tryBoth]⟩,
   ⟨"from_city_input.fill", [tryBoth]⟩,
   ⟨"from_city_text.click", [tryBoth]⟩,
   ⟨"to_city_input.fill", [tryBoth]⟩,
   ⟨"to_city_text.click", [tryBoth]⟩]

/-- clossing_popup.py: the awaited calls issued in `main`'s except clauses
and finally block (no sleep in this script). -/
def tailCalls : List ACall :=
  [⟨"page.screenshot.timeout", []⟩, ⟨"page.screenshot.failure", []⟩,
   ⟨"browser.close", []⟩]

/-- clossing_popup.py: every awaited automation call of the script, in
source order. -/
def allCalls : List ACall := setupCalls ++ tryCalls ++ tailCalls

end ClossingPopup

/-- C2 counterexample: final.py awaits `p.chromium.launch` outside any try
statement, so not every automation call of every script runs inside
handlers catching the timeout and a generic exception; the same holds for
the failure screenshots and the browser close. -/
theorem c2_setup_calls_unprotected :
    (⟨"p.chromium.launch", []⟩ : ACall) ∈ Final.allCalls ∧
    coveredBoth ⟨"p.chromium.launch", []⟩ = false ∧
    (⟨"browser.close", []⟩ : ACall) ∈ Final.allCalls ∧
    coveredBoth ⟨"browser.close", []⟩ = false ∧
    Final.allCalls.all coveredBoth = false := by
  decide

/-- C2 amended: every automation call inside each script's main try block
(including those inside the step functions) runs under handlers that
together catch the timeout exception and a generic exception, and every
except clause of every enclosing handler logs the caught failure; the
browser launch, context and page creation before the try, the failure
screenshots in the except clauses, and the sleep and browser close in the
finally block run under no handler. -/
theorem c2_try_calls_covered_setup_teardown_bare :
    Final.tryCalls.all coveredBoth = true ∧
    Ver2.tryCalls.all coveredBoth = true ∧
    ClossingPopup.tryCalls.all coveredBoth = true ∧
    Final.tryCalls.all (fun c => c.handlers.all (fun h => h.logsFailure)) = true ∧
    Ver2.tryCalls.all (fun c => c.handlers.all (fun h => h.logsFailure)) = true ∧
    ClossingPopup.tryCalls.all (fun c => c.handlers.all (fun h => h.logsFailure)) = true ∧
    (Final.setupCalls ++ Final.tailCalls).all (fun c => c.handlers.isEmpty) = true ∧
    (Ver2.setupCalls ++ Ver2.tailCalls).all (fun c => c.handlers.isEmpty) = true ∧
    (ClossingPopup.setupCalls ++ ClossingPopup.tailCalls).all (fun c => c.handlers.isEmpty) = true := by
  decide

/- ### The tail of main: except clauses and finally block (claim C3) -/

/-- How `main`'s try block ends: normally, with the Playwright timeout
exception, or with any other exception reaching the generic clause. -/
inductive TryOutcome
  | ok
  | timeoutEx
  | genericEx
deriving DecidableEq

/-- The externally visible events of the tail of `main`. -/
inductive MainEv
  | screenshot
  | browserClose
  | sleepCall
deriving DecidableEq

/-- Position of the first occurrence of an event in an event list (length
of the list when absent). -/
def posOf (e : MainEv) : List MainEv → Nat
  | [] => 0
  | x :: rest => if x = e then 0 else posOf e rest + 1

namespace Final

/-- From final.py `main`: the screenshot, sleep and browser-close events
after the try block, as a function of how the try block ended.  Both
except clauses capture a screenshot; the finally block sleeps and closes
the browser on every path. -/
def main_tail : TryOutcome → List MainEv
  | TryOutcome.ok => [MainEv.sleepCall, MainEv.browserClose]
  | TryOutcome.timeoutEx => [MainEv.screenshot, MainEv.sleepCall, MainEv.browserClose]
  | TryOutcome.genericEx => [MainEv.screenshot, MainEv.sleepCall, MainEv.browserClose]

end Final

namespace Ver2

/-- From ver2.py `main`: the screenshot, sleep and browser-close events
after the try block, as a function of how the try block ended. -/
def main_tail : TryOutcome → List MainEv
  | TryOutcome.ok => [MainEv.sleepCall, MainEv.browserClose]
  | TryOutcome.timeoutEx => [MainEv.screenshot, MainEv.sleepCall, MainEv.browserClose]
  | TryOutcome.genericEx => [MainEv.screenshot, MainEv.sleepCall, MainEv.browserClose]

end Ver2

namespace ClossingPopup

/-- From clossing_popup.py `main`: the screenshot and browser-close events
after the try block, as a function of how the try block ended (this script
has no sleep in its finally block). -/
def main_tail : TryOutcome → List MainEv
  | TryOutcome.ok => [MainEv.browserClose]
  | TryOutcome.timeoutEx => [MainEv.screenshot, MainEv.browserClose]
  | TryOutcome.genericEx => [MainEv.screenshot, MainEv.browserClose]

end ClossingPopup

/-- C3: in every script, the browser is closed on every outcome of
`main`'s try block, and whenever an exception reaches the top-level
handlers (timeout or generic), a screenshot is captured and its position
precedes the browser close. -/
theorem c3_screenshot_before_close_and_close_always (o : TryOutcome) :
    (MainEv.browserClose ∈ Final.main_tail o ∧
     MainEv.browserClose ∈ Ver2.main_tail o ∧
     MainEv.browserClose ∈ ClossingPopup.main_tail o) ∧
    (o ≠ TryOutcome.ok →
      (MainEv.screenshot ∈ Final.main_tail o ∧
       posOf MainEv.screenshot (Final.main_tail o) <
         posOf MainEv.browserClose (Final.main_tail o)) ∧
      (MainEv.screenshot ∈ Ver2.main_tail o ∧
       posOf MainEv.screenshot (Ver2.main_tail o) <
         posOf MainEv.browserClose (Ver2.main_tail o)) ∧
      (MainEv.screenshot ∈ ClossingPopup.main_tail o ∧
       posOf MainEv.screenshot (ClossingPopup.main_tail o) <
         posOf MainEv.browserClose (ClossingPopup.main_tail o))) := by
  cases o <;> exact ⟨by decide, by decide⟩

/-- C3 witness: the timeout outcome, where a screenshot is captured before
the browser close in all three scripts. -/
theorem c3_screenshot_before_close_witness :
    TryOutcome.timeoutEx ≠ TryOutcome.ok ∧
    ((MainEv.screenshot ∈ Final.main_tail TryOutcome.timeoutEx ∧
      posOf MainEv.screenshot (Final.main_tail TryOutcome.timeoutEx) <
        posOf MainEv.browserClose (Final.main_tail TryOutcome.timeoutEx)) ∧
     (MainEv.screenshot ∈ Ver2.main_tail TryOutcome.timeoutEx ∧
      posOf MainEv.screenshot (Ver2.main_tail TryOutcome.timeoutEx) <
        posOf MainEv.browserClose (Ver2.main_tail TryOutcome.timeoutEx)) ∧
     (MainEv.screenshot ∈ ClossingPopup.main_tail TryOutcome.timeoutEx ∧
      posOf MainEv.screenshot (ClossingPopup.main_tail TryOutcome.timeoutEx) <
        posOf MainEv.browserClose (ClossingPopup.main_tail TryOutcome.timeoutEx))) :=
  ⟨by decide,
    (c3_screenshot_before_close_and_close_always TryOutcome.timeoutEx).2 (by decide)⟩

/- ### Values passed into library calls (claim C6) -/

/-- A Python value as the scripts use them: a string or an integer. -/
inductive PyVal
  | str (s : String)
  | int (n : Int)

/-- Embedding of Python `str(...)` on the values above. -/
def pyStr : PyVal → String
  | PyVal.str s => s
  | PyVal.int n => toString n

/-- One form interaction: filling a value into an input located by a
selector, or clicking an element located by its selector or text. -/
inductive FormEv
  | fill (field : String) (value : String)
  | click (target : String)

namespace Final

/-- final.py hardcoded constant FROM_CITY. -/
def FROM_CITY : String := "Bangalore"

/-- final.py hardcoded constant TO_CITY. -/
def TO_CITY : String := "Palakkad"

/-- final.py hardcoded constant DATE_STR. -/
def DATE_STR : String := "28-09-2025"

/-- From final.py `enter_passenger_details`: the fills and clicks it
performs, in source order, on its arguments. -/
def enter_passenger_details (name : String) (age : PyVal)
    (gender : String) (number : String) (email : String) : List FormEv :=
  [FormEv.fill "input[placeholder=Name]" name,
   FormEv.fill "input[name=paxAge[0]]" (pyStr age),
   FormEv.click "PROCEED TO PAYEE DETAILS",
   FormEv.fill "input[name=mobileNo]" number,
   FormEv.fill "input[name=email]" email,
   FormEv.click "PROCEED TO PAYMENT OPTIONS"]

/-- From final.py `enter_payee_details`: the fill and click it performs on
its argument. -/
def enter_payee_details (upi_id : String) : List FormEv :=
  [FormEv.fill "div.upi--input--wrap input" upi_id,
   FormEv.click "VERIFY & PAY"]

end Final

namespace ClossingPopup

/-- clossing_popup.py hardcoded constant FROM_CITY. -/
def FROM_CITY : String := "Bangalore"

/-- clossing_popup.py hardcoded constant TO_CITY. -/
def TO_CITY : String := "Palakkad"

/-- From clossing_popup.py `main`: the city-form fills and clicks, in
source order, on the two city values. -/
def city_form_events (from_city to_city : String) : List FormEv :=
  [FormEv.fill "#search-from-city input" from_city,
   FormEv.click from_city,
   FormEv.fill "#search-to-city input" to_city,
   FormEv.click to_city]

end ClossingPopup

/-- C6: the scripts pass their values unchanged into the corresponding
library calls: `enter_passenger_details` fills exactly its name argument
into the Name input and `str(age)` into the age input (and its number and
email arguments likewise), `enter_payee_details` fills exactly its UPI id,
clossing_popup.py fills the city values verbatim into the From/To fields,
and the hardcoded city and date constants appear verbatim inside the
search URL final.py navigates to. -/
theorem c6_values_passed_unchanged (name : String) (age : PyVal)
    (gender number email upi f t : String) :
    Final.enter_passenger_details name age gender number email =
      [FormEv.fill "input[placeholder=Name]" name,
       FormEv.fill "input[name=paxAge[0]]" (pyStr age),
       FormEv.click "PROCEED TO PAYEE DETAILS",
       FormEv.fill "input[name=mobileNo]" number,
       FormEv.fill "input[name=email]" email,
       FormEv.click "PROCEED TO PAYMENT OPTIONS"] ∧
    Final.enter_payee_details upi =
      [FormEv.fill "div.upi--input--wrap input" upi,
       FormEv.click "VERIFY & PAY"] ∧
    ClossingPopup.city_form_events f t =
      [FormEv.fill "#search-from-city input" f,
       FormEv.click f,
       FormEv.fill "#search-to-city input" t,
       FormEv.click t] ∧
    pyIn Final.FROM_CITY (Final.search_url Final.FROM_CITY Final.TO_CITY Final.DATE_STR) = true ∧
    pyIn Final.TO_CITY (Final.search_url Final.FROM_CITY Final.TO_CITY Final.DATE_STR) = true ∧
    pyIn Final.DATE_STR (Final.search_url Final.FROM_CITY Final.TO_CITY Final.DATE_STR) = true :=
  ⟨rfl, rfl, rfl, by decide, by decide, by decide⟩

/- ### The pickup-point locator (claim C9) -/

/-- The observable effect of final.py `select_pickup_point`: the locator
it clicks (a selector plus the Playwright has-text argument) and the
success log line. -/
structure PickupSelection where
  selectorBase : String
  selectorHasText : String
  successLog : String

namespace Final

/-- From final.py `select_pickup_point`: the locator is built inside the
seat chart from the hardcoded text `Huskur gate`, while the success log
interpolates the pickup_point_name argument. -/
def select_pickup_point (pickup_point_name : String) : PickupSelection :=
  { selectorBase := "div.seatchart >> div.point-opt.active >> div"
  , selectorHasText := "Huskur gate"
  , successLog := "Selected pickup point: " ++ pickup_point_name }

end Final

/-- C9: the element `select_pickup_point` attempts to click is the same
for any two values of its pickup_point_name argument (it is located by the
hardcoded text `Huskur gate`), while the success log message reports the
pickup_point_name argument as selected. -/
theorem c9_pickup_locator_independent_of_argument (a b : String) :
    (Final.select_pickup_point a).selectorBase = (Final.select_pickup_point b).selectorBase ∧
    (Final.select_pickup_point a).selectorHasText = (Final.select_pickup_point b).selectorHasText ∧
    (Final.select_pickup_point a).selectorHasText = "Huskur gate" ∧
    (Final.select_pickup_point a).successLog = "Selected pickup point: " ++ a :=
  ⟨rfl, rfl, rfl, rfl⟩

/- ### Sequential execution trace (claim C10) -/

/-- Start or completion of an awaited automation call. -/
inductive Phase
  | beginCall
  | endCall
deriving DecidableEq

/-- The execution trace of a list of awaited calls: the scripts contain no
task spawning or gather, so each `await` runs its call to completion
before the next statement starts, producing strictly nested
begin/end pairs. -/
def awaitTrace : List ACall → List (String × Phase)
  | [] => []
  | c :: rest => (c.name, Phase.beginCall) :: (c.name, Phase.endCall) :: awaitTrace rest

/-- Whether a trace is serial: starting from the given in-flight flag, no
call begins while another is still in flight, and nothing is in flight at
the end. -/
def serialFrom : Bool → List (String × Phase) → Bool
  | false, [] => true
  | true, [] => false
  | false, (_, Phase.beginCall) :: rest => serialFrom true rest
  | false, (_, Phase.endCall) :: _ => false
  | true, (_, Phase.endCall) :: rest => serialFrom false rest
  | true, (_, Phase.beginCall) :: _ => false

/-- Whether a trace has at most one automation operation in flight at any
time. -/
def serial (t : List (String × Phase)) : Bool := serialFrom false t

/-- C10: each script's run is single-session and free of concurrent
automation operations: its awaited-call trace is serial (every call
completes before the next begins) and it launches exactly one browser. -/
theorem c10_serial_trace_single_session :
    serial (awaitTrace Final.allCalls) = true ∧
    serial (awaitTrace Ver2.allCalls) = true ∧
    serial (awaitTrace ClossingPopup.allCalls) = true ∧
    (Final.allCalls.countP (fun c => c.name == "p.chromium.launch")) = 1 ∧
    (Ver2.allCalls.countP (fun c => c.name == "p.chromium.launch")) = 1 ∧
    (ClossingPopup.allCalls.countP (fun c => c.name == "p.chromium.launch")) = 1 := by
  decide
